import Mathlib

/-!
Shallow embedding of the x402 payment-authorization core of the
`0xgasless/agent-sdk` repository:

* `src/x402/wallet.ts` — `createPaymentPayload` (Wallet-based) and the
  payment-aware fetch wrapper `x402Fetch`;
* the Signer-based near-duplicate of `createPaymentPayload`;
* `src/x402/facilitatorClient.ts` — `FacilitatorClient` construction and
  its `verify` / `settle` response mapping;
* the shared x402 data model from `src/types.ts`.

JavaScript-level conventions are made explicit: optional / absent values
are `Option`, the JS `||` fallback (which also fires on falsy values such
as the empty string) is modelled by dedicated helpers, untyped JSON bodies
are a `Json` inductive with JS truthiness, and effects (HTTP calls, the
signer) are modelled by explicit parameters plus an event trace.
-/

namespace AgentSdk

/-! ## Untyped JSON values and JavaScript semantics helpers -/

/-- Untyped JSON value, as produced by `res.json()` / `JSON.parse`. -/
inductive Json where
  | null
  | bool (b : Bool)
  | num (n : Int)
  | str (s : String)
  | obj (fields : List (String × Json))
deriving Repr

/-- JavaScript truthiness of a JSON value
(`null`, `false`, `0`, `""` are falsy; objects are truthy). -/
def Json.truthy : Json → Bool
  | .null => false
  | .bool b => b
  | .num n => n != 0
  | .str s => s != ""
  | .obj _ => true

/-- Property access `data.k` on a parsed JSON object:
a missing key is JS `undefined`, modelled as `none`. -/
def Json.get : Json → String → Option Json
  | .obj fields, k => fields.lookup k
  | _, _ => none

/-- JS truthiness of a possibly-`undefined` value (`undefined` is falsy). -/
def jsTruthy : Option Json → Bool
  | none => false
  | some j => j.truthy

/-- The JS `a || b` operator on possibly-`undefined` JSON values:
returns `a` when `a` is truthy, else `b`. -/
def jsOr (a b : Option Json) : Option Json :=
  if jsTruthy a then a else b

/-- String coercion as performed by JS template literals / `Headers.set`
(`undefined` prints as `"undefined"`). -/
def jsToString : Option Json → String
  | none => "undefined"
  | some .null => "null"
  | some (.bool true) => "true"
  | some (.bool false) => "false"
  | some (.num n) => toString n
  | some (.str s) => s
  | some (.obj _) => "[object Object]"

/-- The JS `a || b` operator specialised to an optional string versus a
string default: the default is used when `a` is `undefined` OR the empty
string (falsy). This models expressions such as
`networkCfg.x402?.domainName || 'B402'`. -/
def jsOrDefault (a : Option String) (b : String) : String :=
  match a with
  | some s => if s != "" then s else b
  | none => b

/-! ## Data model (`src/types.ts`) -/

/-- `PaymentRequirements` from `src/types.ts`. -/
structure PaymentRequirements where
  scheme : String
  network : String
  asset : String
  payTo : String
  maxAmountRequired : String
  maxTimeoutSeconds : Int
  description : Option String := none
  resource : Option String := none
  relayerContract : String
deriving Repr, DecidableEq

/-- `Authorization` from `src/types.ts`; `from` is a Lean keyword, hence
the escaped field name. -/
structure Authorization where
  «from» : String
  «to» : String
  value : String
  validAfter : Int
  validBefore : Int
  nonce : String
deriving Repr, DecidableEq

/-- The nested `{authorization, signature}` payload of `PaymentPayload`. -/
structure SignedPayload where
  authorization : Authorization
  signature : String
deriving Repr, DecidableEq

/-- `PaymentPayload` from `src/types.ts`. -/
structure PaymentPayload where
  x402Version : Nat
  scheme : String
  network : String
  token : String
  payload : SignedPayload
deriving Repr, DecidableEq

/-- The `x402` sub-object of `NetworkConfig` from `src/types.ts`. -/
structure X402Config where
  facilitatorUrl : String
  defaultToken : Option String := none
  domainName : Option String := none
  domainVersion : Option String := none
  verifyingContract : Option String := none
deriving Repr, DecidableEq

/-- `NetworkConfig` from `src/types.ts` (the fields `createPaymentPayload`
reads). -/
structure NetworkConfig where
  name : String
  chainId : Int
  rpcUrl : String
  x402 : Option X402Config := none
deriving Repr, DecidableEq

/-- `TypedDataDomain` (ethers) as used by `createPaymentPayload`. -/
structure TypedDataDomain where
  name : String
  version : String
  chainId : Int
  verifyingContract : String
deriving Repr, DecidableEq

/-- An EIP-712 typed-data field: `{name, type}` pair; a list of these in
source order models one struct definition. -/
abbrev TypedField := String × String

/-- An EIP-712 type table (the `types` object passed to `signTypedData`):
struct names mapped, in source order, to their field lists. -/
abbrev TypedDataTypes := List (String × List TypedField)

/-- An ethers `Wallet` as consumed by the wallet-based
`createPaymentPayload`: a synchronously readable `address` plus the
`signTypedData` capability. The signature function is an abstract
parameter: the model records what domain/types/message were signed. -/
structure Wallet where
  address : String
  signTypedData : TypedDataDomain → TypedDataTypes → Authorization → String

/-- An ethers `Signer` as consumed by the signer-based copy of
`createPaymentPayload`: `getAddress()` plus `signTypedData`. -/
structure Signer where
  getAddress : String
  signTypedData : TypedDataDomain → TypedDataTypes → Authorization → String

/-! ## Authorization builder (`src/x402/wallet.ts`, lines 4–52)

Effects are explicit parameters: `now` is `Math.floor(Date.now() / 1000)`
and `nonceBytes` is the `crypto.getRandomValues` output (32 bytes). -/

/-- One lowercase hexadecimal digit (0–15 → `'0'`–`'9'`, `'a'`–`'f'`), as
produced by `Number.prototype.toString(16)`. -/
def hexDigit (n : Nat) : Char :=
  if n < 10 then Char.ofNat (48 + n) else Char.ofNat (87 + n)

/-- One byte rendered as `b.toString(16).padStart(2, '0')`:
two lowercase hex digits. -/
def byteToHex (b : Fin 256) : String :=
  String.mk [hexDigit (b.val / 16), hexDigit (b.val % 16)]

/-- `Array.from(bytes).map(b => b.toString(16).padStart(2, '0')).join('')`
(the map and the `join('')` are fused into one recursion). -/
def bytesToHex : List (Fin 256) → String
  | [] => ""
  | b :: bs => byteToHex b ++ bytesToHex bs

/-- The EIP-712 type table built inline in both copies of
`createPaymentPayload`: the single struct `TransferWithAuthorization`
with its fields in source order. -/
def transferWithAuthorizationTypes : TypedDataTypes :=
  [ ("TransferWithAuthorization",
     [ ("from", "address"),
       ("to", "address"),
       ("value", "uint256"),
       ("validAfter", "uint256"),
       ("validBefore", "uint256"),
       ("nonce", "bytes32") ]) ]

/-- `createPaymentPayload` from `src/x402/wallet.ts` (Wallet-based copy). -/
def createPaymentPayload (requirements : PaymentRequirements) (wallet : Wallet)
    (networkCfg : NetworkConfig) (now : Int) (nonceBytes : List (Fin 256)) :
    PaymentPayload :=
  let validBefore := now + requirements.maxTimeoutSeconds
  let nonce := "0x" ++ bytesToHex nonceBytes
  let authorization : Authorization :=
    { «from» := wallet.address
      «to» := requirements.payTo
      value := requirements.maxAmountRequired
      validAfter := 0
      validBefore := validBefore
      nonce := nonce }
  let domain : TypedDataDomain :=
    { name := jsOrDefault (networkCfg.x402.bind X402Config.domainName) "B402"
      version := jsOrDefault (networkCfg.x402.bind X402Config.domainVersion) "1"
      chainId := networkCfg.chainId
      verifyingContract := requirements.relayerContract }
  let signature := wallet.signTypedData domain transferWithAuthorizationTypes authorization
  { x402Version := 1
    scheme := "exact"
    network := requirements.network
    token := requirements.asset
    payload := { authorization := authorization, signature := signature } }

/-- The Signer-based near-duplicate of `createPaymentPayload` (the copy
that awaits `signer.getAddress()`). -/
def createPaymentPayloadSigner (requirements : PaymentRequirements) (signer : Signer)
    (networkCfg : NetworkConfig) (now : Int) (nonceBytes : List (Fin 256)) :
    PaymentPayload :=
  let validBefore := now + requirements.maxTimeoutSeconds
  let nonce := "0x" ++ bytesToHex nonceBytes
  let fromAddress := signer.getAddress
  let authorization : Authorization :=
    { «from» := fromAddress
      «to» := requirements.payTo
      value := requirements.maxAmountRequired
      validAfter := 0
      validBefore := validBefore
      nonce := nonce }
  let domain : TypedDataDomain :=
    { name := jsOrDefault (networkCfg.x402.bind X402Config.domainName) "B402"
      version := jsOrDefault (networkCfg.x402.bind X402Config.domainVersion) "1"
      chainId := networkCfg.chainId
      verifyingContract := requirements.relayerContract }
  let signature := signer.signTypedData domain transferWithAuthorizationTypes authorization
  { x402Version := 1
    scheme := "exact"
    network := requirements.network
    token := requirements.asset
    payload := { authorization := authorization, signature := signature } }

/-! ## Facilitator client (`src/x402/facilitatorClient.ts`) -/

/-- `FacilitatorConfig` from `src/x402/types.ts` (that file is not in the
source snapshot; the shape is determined by its uses `cfg.url` /
`cfg.apiKey` in `facilitatorClient.ts` and by the spec: a base URL plus an
optional bearer API key). -/
structure FacilitatorConfig where
  url : String
  apiKey : Option String := none
deriving Repr, DecidableEq

/-- `VerifyResponse` from `src/types.ts`. The reason/payer fields are kept
as raw JSON values because the TypeScript code copies them from an
untyped (`any`) parsed body. -/
structure VerifyResponse where
  isValid : Bool
  payer : Option Json := none
  invalidReason : Option Json := none
deriving Repr

/-- `SettleResponse` from `src/types.ts`, with the same raw-JSON
convention as `VerifyResponse`. -/
structure SettleResponse where
  success : Bool
  transaction : Option Json := none
  network : Option Json := none
  payer : Option Json := none
  errorReason : Option Json := none
deriving Repr

/-- Outcome of one `fetch` + `res.json()` interaction as observed by the
facilitator client: either the awaited `fetch` threw (network-level
exception, carrying `e?.message || String(e)`), or a response arrived
with an HTTP status, a status text and a body whose JSON parse either
succeeded or threw with a message. -/
inductive FetchOutcome where
  | thrown (message : String)
  | response (status : Nat) (statusText : String) (body : Except String Json)
deriving Repr

/-- `res.ok`: status in the 2xx range. -/
def statusOk (status : Nat) : Bool :=
  200 ≤ status && status < 300

/-- JS `s.startsWith(p)`: character-level prefix test. -/
def strStartsWith (s p : String) : Bool :=
  p.data.isPrefixOf s.data

/-- The `FacilitatorClient` constructor (`facilitatorClient.ts` lines
7–12): rejects URLs that start with neither `http://` nor `https://`,
otherwise stores the config with a trailing `/` stripped
(`url.slice(0, -1)` drops the last character). -/
def FacilitatorClient.make (cfg : FacilitatorConfig) : Except String FacilitatorConfig :=
  if ¬(strStartsWith cfg.url "http://") ∧ ¬(strStartsWith cfg.url "https://") then
    .error ("Invalid facilitator URL: " ++ cfg.url)
  else
    .ok { cfg with
          url := if cfg.url.data.getLast? = some '/'
                 then String.mk cfg.url.data.dropLast
                 else cfg.url }

/-- The URL `verify` POSTs to: `` `${this.cfg.url}/verify` ``. -/
def FacilitatorClient.verifyUrl (cfg : FacilitatorConfig) : String :=
  cfg.url ++ "/verify"

/-- The URL `settle` POSTs to: `` `${this.cfg.url}/settle` ``. -/
def FacilitatorClient.settleUrl (cfg : FacilitatorConfig) : String :=
  cfg.url ++ "/settle"

/-- The authorization normalization both `verify` and `settle` apply
before POSTing: `value`, `validAfter` and `validBefore` are stringified
(`.toString()`); `value` is already a string, so only the numeric fields
change representation. The result is the JSON object sent on the wire. -/
def normalizeAuthorization (a : Authorization) : Json :=
  .obj [ ("from", .str a.«from»),
         ("to", .str a.«to»),
         ("value", .str a.value),
         ("validAfter", .str (toString a.validAfter)),
         ("validBefore", .str (toString a.validBefore)),
         ("nonce", .str a.nonce) ]

/-- `FacilitatorClient.verify` (`facilitatorClient.ts` lines 14–46), with
the HTTP exchange abstracted into a `FetchOutcome` argument. The whole
method body runs inside `try …  catch`, so every outcome maps to a
`VerifyResponse`; nothing escapes. -/
def FacilitatorClient.verify (cfg : FacilitatorConfig)
    (payload : PaymentPayload) (requirements : PaymentRequirements)
    (outcome : FetchOutcome) : VerifyResponse :=
  match outcome with
  | .thrown msg =>
      { isValid := false, invalidReason := some (.str ("Network error: " ++ msg)) }
  | .response status statusText body =>
      if ¬ statusOk status then
        { isValid := false
          invalidReason := some (.str ("HTTP " ++ toString status ++ ": " ++ statusText)) }
      else
        match body with
        | .error msg =>
            { isValid := false
              invalidReason := some (.str ("Network error: " ++ msg)) }
        | .ok data =>
            { isValid := jsTruthy (jsOr (data.get "isValid") (data.get "is_valid"))
              payer := data.get "payer"
              invalidReason := jsOr (data.get "invalidReason") (data.get "invalid_reason") }

/-- `FacilitatorClient.settle` (`facilitatorClient.ts` lines 48–86), with
the HTTP exchange abstracted into a `FetchOutcome` argument. -/
def FacilitatorClient.settle (cfg : FacilitatorConfig)
    (payload : PaymentPayload) (requirements : PaymentRequirements)
    (outcome : FetchOutcome) : SettleResponse :=
  match outcome with
  | .thrown msg =>
      { success := false
        network := some (.str requirements.network)
        errorReason := some (.str ("Network error: " ++ msg)) }
  | .response status statusText body =>
      if ¬ statusOk status then
        { success := false
          network := some (.str requirements.network)
          errorReason := some (.str ("HTTP " ++ toString status ++ ": " ++ statusText)) }
      else
        match body with
        | .error msg =>
            { success := false
              network := some (.str requirements.network)
              errorReason := some (.str ("Network error: " ++ msg)) }
        | .ok data =>
            { success := jsTruthy (data.get "success")
              transaction := jsOr (data.get "transaction") (data.get "transactionHash")
              network := jsOr (data.get "network") (some (.str requirements.network))
              payer := data.get "payer"
              errorReason := jsOr (data.get "errorReason") (data.get "error_reason") }

/-! ## Payment-aware fetch wrapper (`src/x402/wallet.ts`, lines 73–103)

The wrapper's effects are explicit: the environment supplies the outcome
of each external interaction (initial fetch, body parse, authorization
build, facilitator verify/settle, retried fetch), and the model returns
the list of effectful calls actually performed alongside the wrapper's
result (`Except.error` models an exception propagating to the caller). -/

/-- The fields of a `RequestInit` the wrapper touches (`headers`) plus
representative other fields it must pass through unchanged via the
`{...(init || {}), headers}` spread. -/
structure RequestInit where
  headers : List (String × String) := []
  method : Option String := none
  body : Option String := none
deriving Repr, DecidableEq

/-- An HTTP `Response` as far as the wrapper observes or constructs one. -/
structure HttpResponse where
  status : Nat
  body : String
  headers : List (String × String) := []
deriving Repr, DecidableEq

/-- JSON string escaping as performed by `JSON.stringify` on the common
characters (quote, backslash, whitespace controls). -/
def jsonEscape (s : String) : String :=
  String.join (s.data.map fun c =>
    if c = '"' then "\\\""
    else if c = '\\' then "\\\\"
    else if c = '\n' then "\\n"
    else if c = '\r' then "\\r"
    else if c = '\t' then "\\t"
    else String.mk [c])

/-- `JSON.stringify({ error: msg })` (braces written as hex escapes). -/
def syntheticErrorBody (msg : String) : String :=
  "\x7b\"error\":\"" ++ jsonEscape msg ++ "\"\x7d"

/-- `new Response(JSON.stringify({error: msg}), {status, headers:
{'Content-Type': 'application/json'}})`. -/
def syntheticResponse (status : Nat) (msg : String) : HttpResponse :=
  { status := status
    body := syntheticErrorBody msg
    headers := [("Content-Type", "application/json")] }

/-- `Headers.set`: replace the value of an existing header with the same
name, else append the header (names are taken already normalized). -/
def setHeader (hs : List (String × String)) (n v : String) : List (String × String) :=
  if hs.any (fun p => p.1 = n) then
    hs.map (fun p => if p.1 = n then (p.1, v) else p)
  else
    hs ++ [(n, v)]

/-- Lines 99–102 of `wallet.ts`: build the retried request's options —
`new Headers(init?.headers || {})`, `headers.set('x402-payment', tx)`,
then `{...(init || {}), headers}`. -/
def retryInit (init : Option RequestInit) (transaction : String) : RequestInit :=
  let base := init.getD {}
  { base with headers := setHeader base.headers "x402-payment" transaction }

/-- The 402 body as the wrapper probes it: both candidate keys, each
either absent (or falsy) or holding a requirements object. -/
structure Parsed402Body where
  paymentRequirements : Option PaymentRequirements := none
  requirements : Option PaymentRequirements := none
deriving Repr, DecidableEq

/-- One effectful call performed by the wrapper, in order. -/
inductive Event where
  | fetchInitial
  | buildAuth
  | verifyCall
  | settleCall
  | fetchRetry (init : RequestInit)
deriving Repr, DecidableEq

/-- Environment of one `x402Fetch` invocation: the outcome each external
interaction would have if performed. -/
structure FetchEnv where
  init : Option RequestInit := none
  firstResponse : HttpResponse
  firstBody : Except String Parsed402Body := .error "no body"
  buildPayload : Except String PaymentPayload := .error "no signer"
  verifyResponse : VerifyResponse := { isValid := false }
  settleResponse : SettleResponse := { success := false }
  retryResponse : HttpResponse := { status := 200, body := "" }

/-- Lines 77–85 of `wallet.ts`: parse the 402 body (`try { … } catch {}`,
a parse failure leaves `reqs` undefined) and probe
`body?.paymentRequirements || body?.requirements`. -/
def extractRequirements (body : Except String Parsed402Body) :
    Option PaymentRequirements :=
  match body with
  | .error _ => none
  | .ok b => b.paymentRequirements.orElse (fun _ => b.requirements)

/-- `x402Fetch` from `src/x402/wallet.ts` (lines 73–103). Returns the
trace of effectful calls performed and either the response the wrapper
resolves with or, as `Except.error`, the exception it propagates
(only `createPaymentPayload`, i.e. the signer, can throw between the
`try` blocks). -/
def x402Fetch (env : FetchEnv) : List Event × Except String HttpResponse :=
  let first := env.firstResponse
  if first.status != 402 then ([.fetchInitial], .ok first)
  else
    let reqs : Option PaymentRequirements := extractRequirements env.firstBody
    match reqs with
    | none =>
        ([.fetchInitial], .ok (syntheticResponse 500 "402 without payment requirements"))
    | some _ =>
        match env.buildPayload with
        | .error e => ([.fetchInitial, .buildAuth], .error e)
        | .ok _ =>
            let verify := env.verifyResponse
            if !verify.isValid then
              ([.fetchInitial, .buildAuth, .verifyCall],
               .ok (syntheticResponse 402
                      ("x402 verify failed: " ++ jsToString verify.invalidReason)))
            else
              let settle := env.settleResponse
              if !settle.success || !jsTruthy settle.transaction then
                ([.fetchInitial, .buildAuth, .verifyCall, .settleCall],
                 .ok (syntheticResponse 500
                        ("x402 settle failed: " ++ jsToString settle.errorReason)))
              else
                let tx := jsToString settle.transaction
                ([.fetchInitial, .buildAuth, .verifyCall, .settleCall,
                  .fetchRetry (retryInit env.init tx)],
                 .ok env.retryResponse)

/-! ## Concrete fixtures (used by witnesses and counterexamples) -/

/-- The example requirements of the spec's end-to-end scenario A. -/
def sampleRequirements : PaymentRequirements :=
  { scheme := "exact", network := "test", asset := "0xAAA", payTo := "0xBBB",
    maxAmountRequired := "1000000", maxTimeoutSeconds := 3600,
    relayerContract := "0xCCC" }

/-- A wallet whose signer always produces the same non-empty signature. -/
def sampleWallet : Wallet :=
  { address := "0xD0D0", signTypedData := fun _ _ _ => "0xsig" }

/-- A signer agreeing with `sampleWallet` on address and signatures. -/
def sampleSigner : Signer :=
  { getAddress := "0xD0D0", signTypedData := fun _ _ _ => "0xsig" }

/-- A wallet whose "signature" records the EIP-712 domain name it was
asked to sign under, exposing the domain actually used. -/
def recordingWallet : Wallet :=
  { address := "0xD0D0", signTypedData := fun d _ _ => d.name }

/-- A network config with no x402 domain overrides. -/
def sampleNetworkCfg : NetworkConfig :=
  { name := "test", chainId := 97, rpcUrl := "http://rpc.example",
    x402 := some { facilitatorUrl := "http://fac.example" } }

/-- A network config whose caller-supplied `domainName` is the empty
string (set, but falsy in JavaScript). -/
def emptyDomainNameCfg : NetworkConfig :=
  { name := "test", chainId := 97, rpcUrl := "http://rpc.example",
    x402 := some { facilitatorUrl := "http://fac.example",
                   domainName := some "" } }

/-- 32 zero bytes, standing in for one `crypto.getRandomValues` output. -/
def zeroNonce : List (Fin 256) := List.replicate 32 0

/-- A concrete payload built from the sample fixtures. -/
def samplePayload : PaymentPayload :=
  createPaymentPayload sampleRequirements sampleWallet sampleNetworkCfg 5 zeroNonce

/-! ## Helper lemmas about the hex encoding of the nonce -/

/-- A lowercase hexadecimal digit character. -/
def isLowerHexDigit (c : Char) : Bool :=
  ('0' ≤ c && c ≤ '9') || ('a' ≤ c && c ≤ 'f')

theorem hexDigit_isLowerHexDigit : ∀ n < 16, isLowerHexDigit (hexDigit n) = true := by
  decide

theorem byteToHex_length (b : Fin 256) : (byteToHex b).length = 2 := rfl

theorem bytesToHex_length (bs : List (Fin 256)) :
    (bytesToHex bs).length = 2 * bs.length := by
  induction bs with
  | nil => rfl
  | cons b bs ih =>
      simp only [bytesToHex, String.length_append, byteToHex_length, ih,
        List.length_cons]
      ring

theorem bytesToHex_mem_hex (bs : List (Fin 256)) :
    ∀ c ∈ (bytesToHex bs).data, isLowerHexDigit c = true := by
  induction bs with
  | nil => intro c hc; cases hc
  | cons b bs ih =>
      intro c hc
      rw [show bytesToHex (b :: bs) = byteToHex b ++ bytesToHex bs from rfl,
        String.data_append] at hc
      rcases List.mem_append.mp hc with h | h
      · have hb := b.isLt
        have hd : (byteToHex b).data = [hexDigit (b.val / 16), hexDigit (b.val % 16)] := rfl
        rw [hd] at h
        rcases List.mem_pair.mp h with rfl | rfl
        · exact hexDigit_isLowerHexDigit _ (by omega)
        · exact hexDigit_isLowerHexDigit _ (by omega)
      · exact ih c h

/-! ## Claim theorems -/

/-- C1: for every `PaymentRequirements` with `maxTimeoutSeconds > 0` and
every clock reading `now`, `createPaymentPayload` returns a
`PaymentPayload` whose authorization has `validAfter = 0`,
`validBefore = now + maxTimeoutSeconds` (hence `validBefore >
validAfter`), `value = requirements.maxAmountRequired`,
`to = requirements.payTo`, `from` = the signer's address, and a nonce
that is the `0x`-prefixed 64-hex-character encoding of the 32 random
bytes; the envelope carries `x402Version = 1`, `scheme = "exact"`,
`network = requirements.network`, `token = requirements.asset`, and a
non-empty signature (provided the signer produces non-empty
signatures). -/
theorem createPaymentPayload_C1
    (requirements : PaymentRequirements) (wallet : Wallet)
    (networkCfg : NetworkConfig) (now : Int) (nonceBytes : List (Fin 256))
    (hmts : 0 < requirements.maxTimeoutSeconds) (hnow : 0 ≤ now)
    (hlen : nonceBytes.length = 32)
    (hsig : ∀ d t a, wallet.signTypedData d t a ≠ "") :
    let p := createPaymentPayload requirements wallet networkCfg now nonceBytes
    p.payload.authorization.validAfter = 0 ∧
    p.payload.authorization.validBefore = now + requirements.maxTimeoutSeconds ∧
    p.payload.authorization.validAfter < p.payload.authorization.validBefore ∧
    p.payload.authorization.value = requirements.maxAmountRequired ∧
    p.payload.authorization.«to» = requirements.payTo ∧
    p.payload.authorization.«from» = wallet.address ∧
    p.payload.authorization.nonce = "0x" ++ bytesToHex nonceBytes ∧
    p.payload.authorization.nonce.length = 66 ∧
    p.payload.authorization.nonce.data.take 2 = ['0', 'x'] ∧
    (p.payload.authorization.nonce.data.drop 2).length = 64 ∧
    (∀ c ∈ p.payload.authorization.nonce.data.drop 2, isLowerHexDigit c = true) ∧
    p.x402Version = 1 ∧ p.scheme = "exact" ∧
    p.network = requirements.network ∧ p.token = requirements.asset ∧
    p.payload.signature ≠ "" := by
  intro p
  have hdata : p.payload.authorization.nonce.data
      = "0x".data ++ (bytesToHex nonceBytes).data := by
    rw [show p.payload.authorization.nonce = "0x" ++ bytesToHex nonceBytes from rfl,
      String.data_append]
  refine ⟨rfl, rfl, ?_, rfl, rfl, rfl, rfl, ?_, ?_, ?_, ?_, rfl, rfl, rfl, rfl, ?_⟩
  · show (0 : Int) < now + requirements.maxTimeoutSeconds
    omega
  · show ("0x" ++ bytesToHex nonceBytes).length = 66
    rw [String.length_append, bytesToHex_length, hlen]
    rfl
  · rw [hdata]
    exact List.take_left' rfl
  · rw [hdata, List.drop_left' (by rfl)]
    show (bytesToHex nonceBytes).length = 64
    rw [bytesToHex_length, hlen]
  · rw [hdata, List.drop_left' (by rfl)]
    exact bytesToHex_mem_hex nonceBytes
  · exact hsig _ _ _

/-- Witness for C1 at the spec's scenario-A requirements, `now = 5`,
and 32 zero nonce bytes. -/
theorem createPaymentPayload_C1_witness :
    (0 : Int) < sampleRequirements.maxTimeoutSeconds ∧
    (createPaymentPayload sampleRequirements sampleWallet sampleNetworkCfg 5
        zeroNonce).payload.authorization.validBefore = 3605 ∧
    (createPaymentPayload sampleRequirements sampleWallet sampleNetworkCfg 5
        zeroNonce).payload.authorization.nonce.length = 66 :=
  ⟨by decide,
   (createPaymentPayload_C1 sampleRequirements sampleWallet sampleNetworkCfg 5
      zeroNonce (by decide) (by decide) (by decide)
      (fun _ _ _ => by show ("0xsig" : String) ≠ ""; decide)).2.1,
   (createPaymentPayload_C1 sampleRequirements sampleWallet sampleNetworkCfg 5
      zeroNonce (by decide) (by decide) (by decide)
      (fun _ _ _ => by show ("0xsig" : String) ≠ ""; decide)).2.2.2.2.2.2.2.1⟩

/-- C2 counterexample: the claim says the domain name is the
caller-supplied `domainName`, with the default `"B402"` only when it is
unset. But with the caller-supplied `domainName` set to the empty string
(set, yet falsy in JavaScript), the builder signs under the domain name
`"B402"`, not the supplied `""`: the JS `||` fallback also fires on a
set-but-empty string. The recording wallet exposes the domain name
actually passed to `signTypedData` as the signature. -/
theorem createPaymentPayload_C2_counterexample :
    emptyDomainNameCfg.x402.bind X402Config.domainName = some "" ∧
    (createPaymentPayload sampleRequirements recordingWallet emptyDomainNameCfg 5
        zeroNonce).payload.signature = "B402" ∧
    ("B402" : String) ≠ "" := by
  refine ⟨rfl, rfl, by decide⟩

/-- C2 (amended): `createPaymentPayload` signs under the EIP-712 domain
`{name, version, chainId, verifyingContract}` where `name` is the
caller-supplied `domainName` when that is a non-empty string and
`"B402"` otherwise (i.e. when unset or empty), `version` likewise with
default `"1"`, `chainId` = the network config's chain id, and
`verifyingContract = requirements.relayerContract`, over the single
typed struct named `TransferWithAuthorization` whose fields are exactly,
and in this order, `from:address, to:address, value:uint256,
validAfter:uint256, validBefore:uint256, nonce:bytes32`. -/
theorem createPaymentPayload_C2_domain
    (requirements : PaymentRequirements) (wallet : Wallet)
    (networkCfg : NetworkConfig) (now : Int) (nonceBytes : List (Fin 256)) :
    (createPaymentPayload requirements wallet networkCfg now
        nonceBytes).payload.signature
      = wallet.signTypedData
          { name :=
              match networkCfg.x402.bind X402Config.domainName with
              | some s => if s = "" then "B402" else s
              | none => "B402"
            version :=
              match networkCfg.x402.bind X402Config.domainVersion with
              | some s => if s = "" then "1" else s
              | none => "1"
            chainId := networkCfg.chainId
            verifyingContract := requirements.relayerContract }
          [ ("TransferWithAuthorization",
             [ ("from", "address"),
               ("to", "address"),
               ("value", "uint256"),
               ("validAfter", "uint256"),
               ("validBefore", "uint256"),
               ("nonce", "bytes32") ]) ]
          (createPaymentPayload requirements wallet networkCfg now
              nonceBytes).payload.authorization := by
  have hname : ∀ (o : Option String) (b : String),
      jsOrDefault o b
        = (match o with | some s => if s = "" then b else s | none => b) := by
    intro o b
    cases o with
    | none => rfl
    | some s =>
        simp only [jsOrDefault]
        by_cases h : s = "" <;> simp [h]
  show wallet.signTypedData _ transferWithAuthorizationTypes _ = _
  rw [hname, hname]
  rfl

/-- C3: `FacilitatorClient.verify` and `.settle` are total on every fetch
outcome (the model of "never throw": the entire method body sits inside
`try … catch`), and: on a non-2xx HTTP status `verify` resolves to
`{isValid: false, invalidReason: "HTTP {status}: {statusText}"}` and
`settle` to `{success: false, network: requirements.network,
errorReason: "HTTP {status}: {statusText}"}`; on a thrown network-level
exception each resolves to the corresponding failure object whose reason
is `"Network error: " ++ message`, i.e. begins with `"Network error: "`. -/
theorem facilitatorClient_C3_no_throw :
    (∀ (cfg : FacilitatorConfig) (payload : PaymentPayload)
        (requirements : PaymentRequirements) (status : Nat) (statusText : String)
        (body : Except String Json),
      statusOk status = false →
        FacilitatorClient.verify cfg payload requirements
            (.response status statusText body)
          = { isValid := false,
              invalidReason :=
                some (.str ("HTTP " ++ toString status ++ ": " ++ statusText)) }) ∧
    (∀ (cfg : FacilitatorConfig) (payload : PaymentPayload)
        (requirements : PaymentRequirements) (msg : String),
      FacilitatorClient.verify cfg payload requirements (.thrown msg)
        = { isValid := false,
            invalidReason := some (.str ("Network error: " ++ msg)) }) ∧
    (∀ (cfg : FacilitatorConfig) (payload : PaymentPayload)
        (requirements : PaymentRequirements) (status : Nat) (statusText : String)
        (body : Except String Json),
      statusOk status = false →
        FacilitatorClient.settle cfg payload requirements
            (.response status statusText body)
          = { success := false,
              network := some (.str requirements.network),
              errorReason :=
                some (.str ("HTTP " ++ toString status ++ ": " ++ statusText)) }) ∧
    (∀ (cfg : FacilitatorConfig) (payload : PaymentPayload)
        (requirements : PaymentRequirements) (msg : String),
      FacilitatorClient.settle cfg payload requirements (.thrown msg)
        = { success := false,
            network := some (.str requirements.network),
            errorReason := some (.str ("Network error: " ++ msg)) }) := by
  refine ⟨?_, ?_, ?_, ?_⟩
  · intro cfg payload requirements status statusText body h
    simp [FacilitatorClient.verify, h]
  · intro cfg payload requirements msg
    rfl
  · intro cfg payload requirements status statusText body h
    simp [FacilitatorClient.settle, h]
  · intro cfg payload requirements msg
    rfl

/-- Witness for C3: a mock facilitator answering HTTP 500 makes `verify`
resolve (not throw) with `isValid = false` and the `"HTTP 500: …"`
reason. -/
theorem facilitatorClient_C3_witness :
    FacilitatorClient.verify { url := "http://fac.example" } samplePayload
        sampleRequirements (.response 500 "Internal Server Error" (.error "no body"))
      = { isValid := false,
          invalidReason :=
            some (.str ("HTTP " ++ toString 500 ++ ": " ++ "Internal Server Error")) } :=
  facilitatorClient_C3_no_throw.1 { url := "http://fac.example" } samplePayload
    sampleRequirements 500 "Internal Server Error" (.error "no body") (by decide)

/-- C8: `FacilitatorClient` construction fails exactly when the base URL
starts with neither `http://` nor `https://`; on success, a single
trailing slash is stripped from the stored URL, so `verify` and `settle`
POST to `{u}/verify` and `{u}/settle` with exactly the one separator
contributed by the path (the stored URL no longer ends in `/`). -/
theorem facilitatorClient_C8_construction (cfg : FacilitatorConfig) :
    ((∃ e, FacilitatorClient.make cfg = Except.error e)
        ↔ ¬(strStartsWith cfg.url "http://" = true ∨ strStartsWith cfg.url "https://" = true)) ∧
    (∀ u : String, cfg.url = u ++ "/" →
      (strStartsWith cfg.url "http://" = true ∨ strStartsWith cfg.url "https://" = true) →
      FacilitatorClient.make cfg = Except.ok { cfg with url := u } ∧
      FacilitatorClient.verifyUrl { cfg with url := u } = u ++ "/verify" ∧
      FacilitatorClient.settleUrl { cfg with url := u } = u ++ "/settle" ∧
      (u.data.getLast? ≠ some '/' →
        ({ cfg with url := u } : FacilitatorConfig).url.data.getLast? ≠ some '/')) := by
  constructor
  · by_cases hp : ¬(strStartsWith cfg.url "http://" = true) ∧ ¬(strStartsWith cfg.url "https://" = true)
    · constructor
      · intro _
        rcases hp with ⟨h1, h2⟩
        rintro (h | h)
        · exact h1 h
        · exact h2 h
      · intro _
        refine ⟨"Invalid facilitator URL: " ++ cfg.url, ?_⟩
        unfold FacilitatorClient.make
        rw [if_pos hp]
    · constructor
      · rintro ⟨e, he⟩
        unfold FacilitatorClient.make at he
        rw [if_neg hp] at he
        cases he
      · intro h
        exact absurd ⟨fun ha => h (Or.inl ha), fun hb => h (Or.inr hb)⟩ hp
  · intro u hu hok
    have hlast : cfg.url.data.getLast? = some '/' := by
      rw [hu, String.data_append]
      exact List.getLast?_concat _
    have hcond : ¬(¬(strStartsWith cfg.url "http://" = true) ∧ ¬(strStartsWith cfg.url "https://" = true)) := by
      tauto
    have hmk : FacilitatorClient.make cfg = Except.ok { cfg with url := u } := by
      unfold FacilitatorClient.make
      rw [if_neg hcond]
      have hdrop : (if cfg.url.data.getLast? = some '/'
          then String.mk cfg.url.data.dropLast else cfg.url) = u := by
        rw [if_pos hlast, hu, String.data_append,
          show "/".data = ['/'] from rfl, List.dropLast_concat]
      rw [hdrop]
    refine ⟨hmk, rfl, rfl, fun h => h⟩

/-- Witness for C8: the base URL `https://fac.example/` (single trailing
slash) is accepted and stored as `https://fac.example`. -/
theorem facilitatorClient_C8_witness :
    FacilitatorClient.make { url := "https://fac.example/" }
      = Except.ok { url := "https://fac.example" } :=
  ((facilitatorClient_C8_construction { url := "https://fac.example/" }).2
    "https://fac.example" (by decide) (Or.inr (by decide))).1

theorem jsTruthy_jsOr (a b : Option Json) :
    jsTruthy (jsOr a b) = (jsTruthy a || jsTruthy b) := by
  unfold jsOr
  by_cases h : jsTruthy a = true
  · simp [h]
  · simp [Bool.not_eq_true] at h
    simp [h]

/-- C9 counterexample: the claim says `settle`'s `network` "falls back to
`requirements.network` when absent"; but with a `network` field that is
present yet falsy (the empty string), the code still falls back: the
mapped `network` is the requirements' `"test"`, not the body's `""`. -/
theorem facilitatorClient_C9_counterexample :
    (FacilitatorClient.settle { url := "http://fac.example" } samplePayload
        sampleRequirements
        (.response 200 "OK"
          (.ok (.obj [("success", .bool true), ("network", .str ""),
                      ("transaction", .str "0xEEE")])))).network
      = some (.str "test") ∧
    (Json.obj [("success", .bool true), ("network", .str ""),
               ("transaction", .str "0xEEE")]).get "network"
      = some (.str "") ∧
    some (Json.str "test") ≠ some (Json.str "") := by
  refine ⟨rfl, rfl, ?_⟩
  intro h
  simp only [Option.some.injEq, Json.str.injEq] at h
  exact absurd h (by decide)

/-- C9 (amended): on a 2xx facilitator response with a parsed JSON object
body, `verify` maps tolerant of both key casings — `isValid` is true
exactly when the body's `isValid` or `is_valid` field is truthy, and
`invalidReason` is `invalidReason` when truthy, else `invalid_reason` —
and `settle` maps `success` from the truthiness of `success`,
`transaction` from `transaction` falling back to the `transactionHash`
alias, `network` from the body's `network` falling back to
`requirements.network` when that field is absent OR falsy (the JS `||`
fallback, e.g. for an empty string), `payer` from `payer`, and
`errorReason` from `errorReason` falling back to `error_reason`. -/
theorem facilitatorClient_C9_mapping
    (cfg : FacilitatorConfig) (payload : PaymentPayload)
    (requirements : PaymentRequirements) (status : Nat) (statusText : String)
    (data : Json) (h2xx : statusOk status = true) :
    FacilitatorClient.verify cfg payload requirements
        (.response status statusText (.ok data))
      = { isValid := jsTruthy (data.get "isValid") || jsTruthy (data.get "is_valid"),
          payer := data.get "payer",
          invalidReason := jsOr (data.get "invalidReason") (data.get "invalid_reason") } ∧
    FacilitatorClient.settle cfg payload requirements
        (.response status statusText (.ok data))
      = { success := jsTruthy (data.get "success"),
          transaction := jsOr (data.get "transaction") (data.get "transactionHash"),
          network := jsOr (data.get "network") (some (.str requirements.network)),
          payer := data.get "payer",
          errorReason := jsOr (data.get "errorReason") (data.get "error_reason") } := by
  constructor
  · simp [FacilitatorClient.verify, h2xx, jsTruthy_jsOr]
  · simp [FacilitatorClient.settle, h2xx]

/-- Witness for C9 at the spec's scenario-A settle body
`{success: true, transaction: "0xEEE"}`. -/
theorem facilitatorClient_C9_witness :
    FacilitatorClient.settle { url := "http://fac.example" } samplePayload
        sampleRequirements
        (.response 200 "OK" (.ok (.obj [("success", .bool true),
                                        ("transaction", .str "0xEEE")])))
      = { success := jsTruthy ((Json.obj [("success", .bool true),
            ("transaction", .str "0xEEE")]).get "success"),
          transaction := jsOr ((Json.obj [("success", .bool true),
              ("transaction", .str "0xEEE")]).get "transaction")
            ((Json.obj [("success", .bool true),
              ("transaction", .str "0xEEE")]).get "transactionHash"),
          network := jsOr ((Json.obj [("success", .bool true),
              ("transaction", .str "0xEEE")]).get "network")
            (some (.str sampleRequirements.network)),
          payer := (Json.obj [("success", .bool true),
              ("transaction", .str "0xEEE")]).get "payer",
          errorReason := jsOr ((Json.obj [("success", .bool true),
              ("transaction", .str "0xEEE")]).get "errorReason")
            ((Json.obj [("success", .bool true),
              ("transaction", .str "0xEEE")]).get "error_reason") } :=
  (facilitatorClient_C9_mapping { url := "http://fac.example" } samplePayload
    sampleRequirements 200 "OK"
    (.obj [("success", .bool true), ("transaction", .str "0xEEE")])
    (by decide)).2

/-- C10: the Wallet-based `createPaymentPayload` and its Signer-based
near-duplicate are equivalent — for every requirements and network
config, given the same clock reading and the same 32 random nonce bytes,
a signer whose reported address and typed-data signing function equal
the wallet's makes both return identical `PaymentPayload` values. -/
theorem createPaymentPayload_C10_equivalent
    (requirements : PaymentRequirements) (wallet : Wallet) (signer : Signer)
    (networkCfg : NetworkConfig) (now : Int) (nonceBytes : List (Fin 256))
    (haddr : signer.getAddress = wallet.address)
    (hsig : signer.signTypedData = wallet.signTypedData) :
    createPaymentPayloadSigner requirements signer networkCfg now nonceBytes
      = createPaymentPayload requirements wallet networkCfg now nonceBytes := by
  unfold createPaymentPayload createPaymentPayloadSigner
  rw [haddr, hsig]

/-- Witness for C10 with a concrete wallet/signer pair that agree. -/
theorem createPaymentPayload_C10_witness :
    createPaymentPayloadSigner sampleRequirements sampleSigner sampleNetworkCfg 5
        zeroNonce
      = createPaymentPayload sampleRequirements sampleWallet sampleNetworkCfg 5
          zeroNonce :=
  createPaymentPayload_C10_equivalent sampleRequirements sampleWallet sampleSigner
    sampleNetworkCfg 5 zeroNonce rfl rfl

/-! ## Header-map lemmas for the retried request -/

theorem lookup_append (l1 l2 : List (String × String)) (n : String) :
    (l1 ++ l2).lookup n = ((l1.lookup n).orElse fun _ => l2.lookup n) := by
  induction l1 with
  | nil => simp [List.lookup]
  | cons p l1 ih => by_cases h : n == p.1 <;> simp [List.lookup, h, ih]

theorem lookup_eq_none_of_any_false (hs : List (String × String)) (n : String)
    (h : hs.any (fun p => p.1 = n) = false) : hs.lookup n = none := by
  induction hs with
  | nil => rfl
  | cons p hs ih =>
      simp only [List.any_cons, Bool.or_eq_false_iff, decide_eq_false_iff_not] at h
      obtain ⟨h1, h2⟩ := h
      have hne : (n == p.1) = false := beq_eq_false_iff_ne.mpr (fun e => h1 e.symm)
      simp [List.lookup, hne, ih h2]

theorem lookup_map_replace_self (hs : List (String × String)) (n v : String)
    (h : hs.any (fun p => p.1 = n) = true) :
    (hs.map (fun p => if p.1 = n then (p.1, v) else p)).lookup n = some v := by
  induction hs with
  | nil => simp at h
  | cons p hs ih =>
      rw [List.map_cons]
      by_cases hp : p.1 = n
      · rw [if_pos hp]
        simp only [List.lookup, hp, beq_self_eq_true]
      · rw [if_neg hp]
        have h' : hs.any (fun p => p.1 = n) = true := by
          simpa [List.any_cons, hp] using h
        have hne : (n == p.1) = false := beq_eq_false_iff_ne.mpr (fun e => hp e.symm)
        simp only [List.lookup, hne]
        exact ih h'

theorem lookup_map_replace_other (hs : List (String × String)) (n v m : String)
    (hm : m ≠ n) :
    (hs.map (fun p => if p.1 = n then (p.1, v) else p)).lookup m = hs.lookup m := by
  induction hs with
  | nil => rfl
  | cons p hs ih =>
      rw [List.map_cons]
      by_cases hp : p.1 = n
      · have hne : (m == p.1) = false :=
          beq_eq_false_iff_ne.mpr (fun e => hm (e.trans hp))
        rw [if_pos hp]
        simp only [List.lookup, hne]
        exact ih
      · rw [if_neg hp]
        cases hmp : (m == p.1) with
        | true => simp only [List.lookup, hmp]
        | false =>
            simp only [List.lookup, hmp]
            exact ih

theorem setHeader_lookup_self (hs : List (String × String)) (n v : String) :
    (setHeader hs n v).lookup n = some v := by
  unfold setHeader
  by_cases h : hs.any (fun p => p.1 = n) = true
  · rw [if_pos h]
    exact lookup_map_replace_self hs n v h
  · rw [if_neg h]
    have hf : hs.any (fun p => p.1 = n) = false := by
      simp only [Bool.not_eq_true] at h
      exact h
    rw [lookup_append, lookup_eq_none_of_any_false hs n hf]
    simp [List.lookup]

theorem setHeader_lookup_other (hs : List (String × String)) (n v m : String)
    (hm : m ≠ n) :
    (setHeader hs n v).lookup m = hs.lookup m := by
  unfold setHeader
  by_cases h : hs.any (fun p => p.1 = n) = true
  · rw [if_pos h]
    exact lookup_map_replace_other hs n v m hm
  · rw [if_neg h, lookup_append]
    have hsingle : List.lookup m [(n, v)] = none := by
      simp [List.lookup, beq_eq_false_iff_ne.mpr hm]
    rw [hsingle]
    cases hs.lookup m <;> rfl

/-! ## Wrapper environment fixtures -/

/-- A non-402 initial response. -/
def passthroughEnv : FetchEnv :=
  { firstResponse := { status := 200, body := "ok" } }

/-- A 402 whose body fails to parse (scenario C). -/
def missingReqsEnv : FetchEnv :=
  { firstResponse := { status := 402, body := "not json" }
    firstBody := .error "Unexpected token" }

/-- A 402 flow in which the signer throws while building the payload. -/
def signerThrowEnv : FetchEnv :=
  { firstResponse := { status := 402, body := "" }
    firstBody := .ok { paymentRequirements := some sampleRequirements }
    buildPayload := .error "signer rejected" }

/-- Scenario B: verify answers `isValid: false` with reason
`bad signature`. -/
def verifyFailEnv : FetchEnv :=
  { firstResponse := { status := 402, body := "" }
    firstBody := .ok { paymentRequirements := some sampleRequirements }
    buildPayload := .ok samplePayload
    verifyResponse := { isValid := false, invalidReason := some (.str "bad signature") } }

/-- Scenario A with a twist: the retried request answers 402 again, to
exhibit that no second payment cycle is attempted. -/
def retryEnv : FetchEnv :=
  { init := some { headers := [("Accept", "application/json")], method := some "GET" }
    firstResponse := { status := 402, body := "" }
    firstBody := .ok { paymentRequirements := some sampleRequirements }
    buildPayload := .ok samplePayload
    verifyResponse := { isValid := true, payer := some (.str "0xDDD") }
    settleResponse := { success := true, transaction := some (.str "0xEEE"),
                        network := some (.str "test") }
    retryResponse := { status := 402, body := "pay again" } }

/-! ## Wrapper claim theorems -/

/-- C6: for every initial response whose status is not 402, the wrapper
returns that response unchanged after exactly one outbound HTTP call
(the trace is exactly `[fetchInitial]`), invoking neither the
authorization builder nor the facilitator client. -/
theorem x402Fetch_C6_passthrough (env : FetchEnv)
    (h : env.firstResponse.status ≠ 402) :
    x402Fetch env = ([Event.fetchInitial], Except.ok env.firstResponse) ∧
    Event.buildAuth ∉ (x402Fetch env).1 ∧
    Event.verifyCall ∉ (x402Fetch env).1 ∧
    Event.settleCall ∉ (x402Fetch env).1 ∧
    (∀ i, Event.fetchRetry i ∉ (x402Fetch env).1) := by
  have hb : (env.firstResponse.status != 402) = true := by
    simpa using h
  have heq : x402Fetch env = ([Event.fetchInitial], Except.ok env.firstResponse) := by
    unfold x402Fetch
    rw [if_pos hb]
  refine ⟨heq, ?_, ?_, ?_, ?_⟩
  · rw [heq]; simp
  · rw [heq]; simp
  · rw [heq]; simp
  · intro i; rw [heq]; simp

/-- Witness for C6: a 200 response passes through untouched. -/
theorem x402Fetch_C6_witness :
    x402Fetch passthroughEnv
      = ([Event.fetchInitial], Except.ok { status := 200, body := "ok" }) :=
  (x402Fetch_C6_passthrough passthroughEnv (by decide)).1

/-- C7: if the signer fails while the wrapper builds the authorization,
the exception propagates unchanged to the wrapper's caller (the result
is `Except.error e`, not a synthetic HTTP response), and no facilitator
call nor retry happens afterwards. -/
theorem x402Fetch_C7_signer_exception (env : FetchEnv) (e : String)
    (reqs : PaymentRequirements)
    (h402 : env.firstResponse.status = 402)
    (hreqs : extractRequirements env.firstBody = some reqs)
    (hbuild : env.buildPayload = Except.error e) :
    x402Fetch env = ([Event.fetchInitial, Event.buildAuth], Except.error e) ∧
    Event.verifyCall ∉ (x402Fetch env).1 ∧
    Event.settleCall ∉ (x402Fetch env).1 ∧
    (∀ r, (x402Fetch env).2 ≠ Except.ok r) := by
  have heq : x402Fetch env = ([Event.fetchInitial, Event.buildAuth], Except.error e) := by
    unfold x402Fetch
    simp [h402, hreqs, hbuild]
  refine ⟨heq, ?_, ?_, ?_⟩
  · rw [heq]; simp
  · rw [heq]; simp
  · intro r; rw [heq]; simp

/-- Witness for C7: with a rejecting signer the wrapper's result is the
propagated exception `"signer rejected"`. -/
theorem x402Fetch_C7_witness :
    x402Fetch signerThrowEnv
      = ([Event.fetchInitial, Event.buildAuth], Except.error "signer rejected") :=
  (x402Fetch_C7_signer_exception signerThrowEnv "signer rejected" sampleRequirements
    (by decide) rfl rfl).1

/-- C4: every protocol negotiation failure yields a synthetic HTTP
response (an `Except.ok`, never a propagated exception) and later steps
are not taken: a 402 whose body cannot be parsed or carries neither
`paymentRequirements` nor `requirements` yields status 500 with body
`{"error":"402 without payment requirements"}` and no facilitator call;
a failed verify yields status 402 with body
`{"error":"x402 verify failed: {invalidReason}"}` and settle is never
called; a failed settle (or one without a transaction identifier) yields
status 500 with body `{"error":"x402 settle failed: {errorReason}"}` and
the original request is not retried. -/
theorem x402Fetch_C4_negotiation_failures :
    (∀ env : FetchEnv,
      env.firstResponse.status = 402 →
      extractRequirements env.firstBody = none →
        x402Fetch env
          = ([Event.fetchInitial],
             Except.ok (syntheticResponse 500 "402 without payment requirements")) ∧
        (syntheticResponse 500 "402 without payment requirements").status = 500 ∧
        (syntheticResponse 500 "402 without payment requirements").body
          = "\x7b\"error\":\"402 without payment requirements\"\x7d" ∧
        Event.buildAuth ∉ (x402Fetch env).1 ∧
        Event.verifyCall ∉ (x402Fetch env).1 ∧
        Event.settleCall ∉ (x402Fetch env).1) ∧
    (∀ (env : FetchEnv) (reqs : PaymentRequirements) (p : PaymentPayload),
      env.firstResponse.status = 402 →
      extractRequirements env.firstBody = some reqs →
      env.buildPayload = Except.ok p →
      env.verifyResponse.isValid = false →
        x402Fetch env
          = ([Event.fetchInitial, Event.buildAuth, Event.verifyCall],
             Except.ok (syntheticResponse 402
               ("x402 verify failed: " ++ jsToString env.verifyResponse.invalidReason))) ∧
        Event.settleCall ∉ (x402Fetch env).1 ∧
        (∀ i, Event.fetchRetry i ∉ (x402Fetch env).1)) ∧
    (∀ (env : FetchEnv) (reqs : PaymentRequirements) (p : PaymentPayload),
      env.firstResponse.status = 402 →
      extractRequirements env.firstBody = some reqs →
      env.buildPayload = Except.ok p →
      env.verifyResponse.isValid = true →
      (env.settleResponse.success = false ∨
        jsTruthy env.settleResponse.transaction = false) →
        x402Fetch env
          = ([Event.fetchInitial, Event.buildAuth, Event.verifyCall, Event.settleCall],
             Except.ok (syntheticResponse 500
               ("x402 settle failed: " ++ jsToString env.settleResponse.errorReason))) ∧
        (∀ i, Event.fetchRetry i ∉ (x402Fetch env).1)) := by
  refine ⟨?_, ?_, ?_⟩
  · intro env h402 hnone
    have heq : x402Fetch env
        = ([Event.fetchInitial],
           Except.ok (syntheticResponse 500 "402 without payment requirements")) := by
      unfold x402Fetch
      simp [h402, hnone]
    refine ⟨heq, rfl, rfl, ?_, ?_, ?_⟩ <;> rw [heq] <;> simp
  · intro env reqs p h402 hreqs hbuild hvalid
    have heq : x402Fetch env
        = ([Event.fetchInitial, Event.buildAuth, Event.verifyCall],
           Except.ok (syntheticResponse 402
             ("x402 verify failed: " ++ jsToString env.verifyResponse.invalidReason))) := by
      unfold x402Fetch
      simp [h402, hreqs, hbuild, hvalid]
    refine ⟨heq, ?_, ?_⟩
    · rw [heq]; simp
    · intro i; rw [heq]; simp
  · intro env reqs p h402 hreqs hbuild hvalid hsettle
    have hcond : (!env.settleResponse.success
        || !jsTruthy env.settleResponse.transaction) = true := by
      rcases hsettle with h | h <;> simp [h]
    have heq : x402Fetch env
        = ([Event.fetchInitial, Event.buildAuth, Event.verifyCall, Event.settleCall],
           Except.ok (syntheticResponse 500
             ("x402 settle failed: " ++ jsToString env.settleResponse.errorReason))) := by
      unfold x402Fetch
      simp only [h402, hreqs, hbuild, hvalid]
      simp [hcond]
    refine ⟨heq, ?_⟩
    intro i; rw [heq]; simp

/-- Witness for C4 at scenario C (unparsable 402 body): synthetic 500,
no facilitator calls. -/
theorem x402Fetch_C4_witness :
    x402Fetch missingReqsEnv
      = ([Event.fetchInitial],
         Except.ok (syntheticResponse 500 "402 without payment requirements")) :=
  (x402Fetch_C4_negotiation_failures.1 missingReqsEnv (by decide) rfl).1

/-- C5: when verify succeeds and settle succeeds with a transaction
identifier `t`, the wrapper re-issues the original request exactly once
with the `x402-payment` header set to `t`, leaves every other header and
every other request-option field unchanged, and returns the retried
response unmodified — with no second payment cycle regardless of the
retried response's status (the conclusion does not constrain
`env.retryResponse`, and the trace contains exactly one retry). -/
theorem x402Fetch_C5_retry (env : FetchEnv) (p : PaymentPayload)
    (reqs : PaymentRequirements) (t : String)
    (h402 : env.firstResponse.status = 402)
    (hreqs : extractRequirements env.firstBody = some reqs)
    (hbuild : env.buildPayload = Except.ok p)
    (hvalid : env.verifyResponse.isValid = true)
    (hsuccess : env.settleResponse.success = true)
    (htx : env.settleResponse.transaction = some (Json.str t))
    (htne : t ≠ "") :
    x402Fetch env
      = ([Event.fetchInitial, Event.buildAuth, Event.verifyCall, Event.settleCall,
          Event.fetchRetry (retryInit env.init t)], Except.ok env.retryResponse) ∧
    (retryInit env.init t).headers.lookup "x402-payment" = some t ∧
    (∀ m, m ≠ "x402-payment" →
      (retryInit env.init t).headers.lookup m
        = (env.init.getD {}).headers.lookup m) ∧
    (retryInit env.init t).method = (env.init.getD {}).method ∧
    (retryInit env.init t).body = (env.init.getD {}).body ∧
    (x402Fetch env).1.countP (fun e => match e with
        | Event.fetchRetry _ => true
        | _ => false) = 1 := by
  have httrue : jsTruthy env.settleResponse.transaction = true := by
    rw [htx]
    simp [jsTruthy, Json.truthy, htne]
  have htstr : jsToString env.settleResponse.transaction = t := by
    rw [htx]
    rfl
  have heq : x402Fetch env
      = ([Event.fetchInitial, Event.buildAuth, Event.verifyCall, Event.settleCall,
          Event.fetchRetry (retryInit env.init t)], Except.ok env.retryResponse) := by
    unfold x402Fetch
    simp [h402, hreqs, hbuild, hvalid, hsuccess, httrue, htstr]
  refine ⟨heq, ?_, ?_, rfl, rfl, ?_⟩
  · exact setHeader_lookup_self _ _ _
  · intro m hm
    exact setHeader_lookup_other _ _ _ _ hm
  · rw [heq]
    rfl

/-- Witness for C5 at scenario A (transaction `0xEEE`), with a retried
response that is itself a 402 — returned as-is, no second cycle. -/
theorem x402Fetch_C5_witness :
    x402Fetch retryEnv
      = ([Event.fetchInitial, Event.buildAuth, Event.verifyCall, Event.settleCall,
          Event.fetchRetry (retryInit retryEnv.init "0xEEE")],
         Except.ok { status := 402, body := "pay again" }) ∧
    (retryInit retryEnv.init "0xEEE").headers.lookup "x402-payment" = some "0xEEE" :=
  ⟨(x402Fetch_C5_retry retryEnv samplePayload sampleRequirements "0xEEE"
      (by decide) rfl rfl rfl rfl rfl (by decide)).1,
   (x402Fetch_C5_retry retryEnv samplePayload sampleRequirements "0xEEE"
      (by decide) rfl rfl rfl rfl rfl (by decide)).2.1⟩

end AgentSdk
